import Mathlib

/-!
# Verification of the submission-processing pipeline

A shallow embedding, in Lean 4, of the core logic of the quest/receipt
payout backend: the payout executor (`src/BackEnd/src/agents/payout.ts`),
the worker loop and job claim (`src/BackEnd/src/services/worker.ts`), the
fraud/risk engine (`src/BackEnd/src/agents/fraud-guard.ts`) and the rule
verifier's amount predicate (`src/BackEnd/src/agents/verifier.ts`).

Conventions of the embedding:
* JavaScript numbers holding money and risk scores are modelled as `ℚ`;
  integer identifiers, counters and epoch-millisecond timestamps as
  `Int`/`Nat`.
* Database rows are Lean structures; a Prisma interactive transaction is
  modelled as a pure function returning `Except`: on `.error` every write
  made inside the callback is discarded (rollback), on `.ok` the new state
  is returned.  All quantities observable outside the transaction are
  taken from that returned state.
* `sha256` fingerprints are modelled by the canonical string that the
  source hashes; equality of hashes is equality of canonical strings.
* External collaborators (spend authorizer, transfer rail) are modelled by
  explicit outcome parameters, since the source treats them as black boxes.
-/

namespace QuestPipeline

/-- Submission lifecycle states (Prisma enum used throughout the backend). -/
inductive SubmissionStatus where
  | PENDING
  | QUEUED
  | PROCESSING
  | APPROVED
  | REJECTED
  | FAILED
  | PAID
deriving DecidableEq, Repr

/-- Payout row states (Prisma enum `PayoutStatus`). -/
inductive PayoutStatus where
  | PROCESSING
  | COMPLETED
  | FAILED
deriving DecidableEq, Repr

/-- Job queue states (Prisma enum `JobStatus`). -/
inductive JobStatus where
  | QUEUED
  | PROCESSING
  | COMPLETED
  | FAILED
deriving DecidableEq, Repr

/-- The quest row fields read and written by the payout transaction
(`payout.ts`): `unit_amount`, `budget_total`, `budget_remaining`. -/
structure Quest where
  id : String
  unit_amount : ℚ
  budget_total : ℚ
  budget_remaining : ℚ
deriving DecidableEq, Repr

/-- The submission fields the payout executor reads. -/
structure SubRecord where
  id : String
  wallet : String
  device_fingerprint : String
  justification_text : String
  status : SubmissionStatus
deriving DecidableEq, Repr

/-- A `Payout` row (`payout.ts` upsert/update targets). -/
structure PayoutRow where
  id : String
  submission_id : String
  amount : ℚ
  tx_hash : Option String
  status : PayoutStatus
  mocked : Bool
deriving DecidableEq, Repr

/-- The slice of the database that one `payoutAgent` call touches:
the submission (with its quest row) plus the optional existing payout row.
`hasVerification` models `submission.verification_result !== null`. -/
structure PayoutDB where
  quest : Quest
  submission : SubRecord
  hasVerification : Bool
  payout : Option PayoutRow
deriving DecidableEq, Repr

/-- Errors thrown by `payoutAgent`.  `policyViolation` mirrors the
`PolicyViolation(message, reason)` class from `locus/adapter.ts`; every
other thrown `Error` is `generic`. -/
inductive PayoutError where
  | generic (msg : String)
  | policyViolation (message : String) (reason : Option String)
deriving DecidableEq, Repr

/-- `error instanceof PolicyViolation` (`payout.ts` line 76). -/
def PayoutError.isPolicyViolation : PayoutError → Bool
  | .policyViolation _ _ => true
  | .generic _ => false

/-- The value returned by `payoutAgent` (`PayoutResult` in `payout.ts`). -/
structure PayoutResult where
  payoutId : String
  txHash : String
  amount : ℚ
  mocked : Bool
deriving DecidableEq, Repr

/-- The `tx.payout.upsert` of the transaction (`payout.ts` lines
211-224): update an existing row to `PROCESSING`, or create a fresh
`PROCESSING` row for the submission. -/
def upsertProcessing (db : PayoutDB) (newPayoutId : String) : PayoutRow :=
  match db.payout with
  | some p => { p with status := PayoutStatus.PROCESSING }
  | none =>
    { id := newPayoutId, submission_id := db.submission.id,
      amount := db.quest.unit_amount, tx_hash := none,
      status := PayoutStatus.PROCESSING, mocked := false }

/-- The transfer step (`payout.ts` lines 227-264): in demo mode a
deterministic keccak hash (never failing, `mocked = true`); otherwise the
real rail's outcome, whose failure is re-thrown out of the transaction. -/
def transferOutcome (demoMode : Bool) (demoHash : String)
    (realTransfer : Except String String) : Except PayoutError (String × Bool) :=
  if demoMode then .ok (demoHash, true)
  else
    match realTransfer with
    | .ok h => .ok (h, false)
    | .error m => .error (.generic m)

/-- The insufficient-budget policy-violation message
(`payout.ts` line 179). -/
def insufficientBudgetMsg (b u : ℚ) : String :=
  s!"Insufficient budget: {b} < {u}"

/-- The database state committed by a successful transaction: budget
decremented by `unit_amount`, submission `PAID`, payout row `COMPLETED`
with the transfer hash. -/
def successDB (db : PayoutDB) (row : PayoutRow) (txHash : String) (mocked : Bool) :
    PayoutDB :=
  { db with
      quest := { db.quest with
        budget_remaining := db.quest.budget_remaining - db.quest.unit_amount },
      submission := { db.submission with status := SubmissionStatus.PAID },
      payout := some { row with
        tx_hash := some txHash, status := PayoutStatus.COMPLETED, mocked := mocked } }

/-- The `prisma.$transaction` body of `payoutAgent` (`payout.ts` lines
155-313): lock and re-read the quest, re-check the budget, call the spend
authorizer, decrement the budget, upsert the payout row, obtain a transfer
hash, then complete the payout and mark the submission `PAID`.  A thrown
error rolls the whole transaction back, which the embedding renders by
returning `.error` and discarding the intermediate writes (including the
`status: FAILED` update the source attempts in its transfer `catch`
block before re-throwing). -/
def payoutTransaction (db : PayoutDB) (authorized : Bool) (authReason : Option String)
    (demoMode : Bool) (demoHash : String) (realTransfer : Except String String)
    (newPayoutId : String) : Except PayoutError (PayoutResult × PayoutDB) :=
  if db.quest.budget_remaining < db.quest.unit_amount then
    .error (.policyViolation
      (insufficientBudgetMsg db.quest.budget_remaining db.quest.unit_amount)
      (some "Quest budget exhausted"))
  else if authorized = false then
    .error (.policyViolation (authReason.getD "Policy violation") authReason)
  else
    match transferOutcome demoMode demoHash realTransfer with
    | .error e => .error e
    | .ok (txHash, mocked) =>
      .ok ({ payoutId := (upsertProcessing db newPayoutId).id, txHash := txHash,
             amount := db.quest.unit_amount, mocked := mocked },
        successDB db (upsertProcessing db newPayoutId) txHash mocked)

/-- One attempt of `payoutAgent` (`payout.ts` lines 107-316): load the
submission, require a verification result and status `APPROVED`, return
the existing payout idempotently when it is already `COMPLETED`, and
otherwise run the budget-locking transaction. -/
def payoutAttempt (db : PayoutDB) (authorized : Bool) (authReason : Option String)
    (demoMode : Bool) (demoHash : String) (realTransfer : Except String String)
    (newPayoutId : String) : Except PayoutError (PayoutResult × PayoutDB) :=
  if db.hasVerification = false then
    .error (.generic "Submission has no verification result")
  else if db.submission.status ≠ SubmissionStatus.APPROVED then
    .error (.generic "Submission is not approved")
  else
    match db.payout with
    | some p =>
      if p.status = PayoutStatus.COMPLETED then
        .ok ({ payoutId := p.id, txHash := p.tx_hash.getD "", amount := p.amount,
               mocked := p.mocked }, db)
      else
        payoutTransaction db authorized authReason demoMode demoHash realTransfer newPayoutId
    | none => payoutTransaction db authorized authReason demoMode demoHash realTransfer newPayoutId

/-- The database state after an attempt: the returned state on success,
the original state on a thrown error (transaction rollback). -/
def postDB (db : PayoutDB) (r : Except PayoutError (PayoutResult × PayoutDB)) : PayoutDB :=
  match r with
  | .ok (_, db2) => db2
  | .error _ => db

/-- Is `pat` a prefix of `s` (on character lists)? -/
def leadsWith : List Char → List Char → Bool
  | _, [] => true
  | [], _ :: _ => false
  | c :: cs, p :: ps => c == p && leadsWith cs ps

/-- Does `pat` occur inside `s` (on character lists)? -/
def containsList : List Char → List Char → Bool
  | [], pat => pat.isEmpty
  | c :: cs, pat => leadsWith (c :: cs) pat || containsList cs pat

/-- Substring test (`String.prototype.includes`), used by the retry
helper's transient-error sniffing and the quality checks. -/
def strContains (s pat : String) : Bool := containsList s.data pat.data

/-- The transient-error test of `retry` (`payout.ts` lines 81-87):
the message contains one of the four network markers. -/
def isTransientMessage (msg : String) : Bool :=
  strContains msg "timeout" || strContains msg "network" ||
    strContains msg "ECONNRESET" || strContains msg "ETIMEDOUT"

/-- The exponential backoff delay of `retry` (`payout.ts` line 95):
`delayMs * Math.pow(2, attempt)`. -/
def backoffDelay (delayMs attempt : Nat) : Nat := delayMs * 2 ^ attempt

/-- The loop body of `retry` (`payout.ts` lines 69-99).  `fn attempt` is
the outcome of the wrapped call on that attempt; a `PolicyViolation` is
re-thrown immediately; every other error falls through to the next
attempt (the `isTransient` check is computed by the source but its result
is never used to stop retrying), and after the last attempt the last
error is thrown. -/
def retryAux {α : Type} (fn : Nat → Except PayoutError α) (attempt fuel : Nat)
    (last : PayoutError) : Except PayoutError α :=
  match fuel with
  | 0 => .error last
  | fuel' + 1 =>
    match fn attempt with
    | .ok v => .ok v
    | .error e =>
      if e.isPolicyViolation then .error e
      else retryAux fn (attempt + 1) fuel' e

/-- `retry(fn, maxRetries)` (`payout.ts` lines 62-102), starting at
attempt 0 with `lastError = null` rendered as the fallback
`'Retry failed'` error. -/
def retryModel {α : Type} (fn : Nat → Except PayoutError α) (maxRetries : Nat) :
    Except PayoutError α :=
  retryAux fn 0 maxRetries (.generic "Retry failed")

/-- The exported `payoutAgent` entry point: the single attempt wrapped in
`retry(..., 3)`.  `realTransfer n` is the transfer rail's outcome on
attempt `n`. -/
def payoutAgent (db : PayoutDB) (authorized : Bool) (authReason : Option String)
    (demoMode : Bool) (demoHash : String) (realTransfer : Nat → Except String String)
    (newPayoutId : String) : Except PayoutError (PayoutResult × PayoutDB) :=
  retryModel (fun n => payoutAttempt db authorized authReason demoMode demoHash
    (realTransfer n) newPayoutId) 3

/-! ## Worker loop: pipeline decision (`worker.ts` lines 62-105) -/

/-- The decision values written to `VerificationResult.decision`. -/
inductive Decision where
  | APPROVE
  | REJECT
deriving DecidableEq, Repr

/-- One entry of the verifier's `rules_fired` trace as read by the worker
(`r.ok === true` is the only field it consults). -/
structure FiredRule where
  field : String
  ok : Bool
deriving DecidableEq, Repr

/-- `worker.ts` lines 70-72: `allPredicatesPass && risk_score < 0.5`
decides `APPROVE`, anything else `REJECT`. -/
def pipelineDecision (rulesFired : List FiredRule) (riskScore : ℚ) : Decision :=
  if (rulesFired.all fun r => r.ok) && decide (riskScore < 1 / 2) then Decision.APPROVE
  else Decision.REJECT

/-- `worker.ts` line 92: the submission status written after the decision. -/
def statusAfterDecision (d : Decision) : SubmissionStatus :=
  if d = Decision.APPROVE then SubmissionStatus.APPROVED else SubmissionStatus.REJECTED

/-! ## Fraud guard (`fraud-guard.ts`) -/

/-- The OCR fields carried in a verification trace (`ocr_fields`):
`amount` is the extracted dollar amount (a JS number). -/
structure OcrFields where
  merchant : String
  date : String
  amount : ℚ
deriving DecidableEq, Repr

/-- `date.split('T')[0]` — the characters before the first `T` (the whole
string when no `T` occurs), i.e. the ISO date only. -/
def dateOnly (d : String) : String :=
  String.mk (d.data.takeWhile fun c => c != 'T')

/-- `String.prototype.toLowerCase` character by character. -/
def toLowerStr (s : String) : String := String.mk (s.data.map Char.toLower)

/-- `String.prototype.trim`: strip whitespace at both ends. -/
def trimStr (s : String) : String :=
  String.mk (((s.data.dropWhile Char.isWhitespace).reverse.dropWhile
    Char.isWhitespace).reverse)

/-- `merchant.toLowerCase().trim()`. -/
def normalizeMerchant (m : String) : String := trimStr (toLowerStr m)

/-- The canonical string hashed by `calculateReceiptFingerprint`
(`fraud-guard.ts` lines 28-39):
`lower(merchant)|dateOnly|Math.round(amount*100)`.  The embedding keeps
the canonical string itself in place of its sha256 hex digest. -/
def receiptFingerprint (f : OcrFields) : String :=
  normalizeMerchant f.merchant ++ "|" ++ dateOnly f.date ++ "|" ++
    toString (round (f.amount * 100))

/-- The canonical string hashed by `calculateFuzzyFingerprint`
(`fraud-guard.ts` lines 45-51): `lower(merchant)|dateOnly` only. -/
def fuzzyFingerprint (merchant date : String) : String :=
  normalizeMerchant merchant ++ "|" ++ dateOnly date

/-- A submission row as the fraud guard queries it: `traceFields` is the
`ocr_fields` recovered from the stored verification trace, when present. -/
structure SubRow where
  id : String
  wallet : String
  device_fingerprint : String
  quest_id : String
  status : SubmissionStatus
  created_at : Int
  justification_text : String
  traceFields : Option OcrFields
deriving DecidableEq, Repr

/-- The record returned by `fraudGuardAgent`.  The two early duplicate
returns carry no quality fields (hence the `Option`s). -/
structure FraudResult where
  duplicate : Bool
  device_velocity : Nat
  risk_score : ℚ
  reasons : List String
  quality_score : Option ℚ
  quality_flags : Option (List String)
deriving DecidableEq, Repr

/-- `Math.max` on JavaScript numbers. -/
def jsMax (a b : ℚ) : ℚ := if a < b then b else a

/-- Helper for `wordsOf`: split on whitespace runs, accumulating the
current word reversed. -/
def wordsOfAux : List Char → List Char → List String
  | [], acc => if acc.isEmpty then [] else [String.mk acc.reverse]
  | c :: cs, acc =>
    if c.isWhitespace then
      (if acc.isEmpty then wordsOfAux cs [] else String.mk acc.reverse :: wordsOfAux cs [])
    else wordsOfAux cs (c :: acc)

/-- `justification.trim().split(/\s+/).filter(w => w.length > 0)`:
the maximal whitespace-free words of the string. -/
def wordsOf (s : String) : List String := wordsOfAux s.data []

/-- Boilerplate phrases (`fraud-guard.ts` lines 78-83). -/
def boilerplatePhrases : List String :=
  ["this is a test", "just testing", "demo submission", "test receipt"]

/-- Pet keywords (`fraud-guard.ts` line 94). -/
def petKeywords : List String :=
  ["dog", "cat", "pet", "puppy", "kitten", "food", "toy", "treat"]

/-- `checkJustificationQuality` (`fraud-guard.ts` lines 56-111): returns
`(score, flags)`; disabled scoring returns `(1.0, [])`. -/
def checkJustificationQuality (justification : String) (enableQualityScoring : Bool) :
    ℚ × List String :=
  if enableQualityScoring = false then (1, [])
  else
    let words := wordsOf justification
    let lenFlags : List String :=
      if words.length < 12 then ["too_short"]
      else if words.length < 20 then ["short"] else []
    let lenPenalty : ℚ :=
      if words.length < 12 then 1 / 5
      else if words.length < 20 then 1 / 10 else 0
    let lower := toLowerStr justification
    let hasBoiler := boilerplatePhrases.any fun p => strContains lower p
    let boilerFlags : List String := if hasBoiler then ["boilerplate"] else []
    let boilerPenalty : ℚ := if hasBoiler then 3 / 10 else 0
    let hasKeyword := petKeywords.any fun k => strContains lower k
    let kwFlags : List String := if hasKeyword then [] else ["no_pet_keyword"]
    let kwPenalty : ℚ := if hasKeyword then 0 else 1 / 5
    (jsMax 0 (1 - lenPenalty - boilerPenalty - kwPenalty), lenFlags ++ boilerFlags ++ kwFlags)

/-- Seven days in milliseconds (`sevenDaysAgo` computation). -/
def sevenDaysMs : Int := 7 * 24 * 60 * 60 * 1000

/-- Does this row's stored trace carry OCR fields whose fingerprint equals
`fp`?  (`fraud-guard.ts` loop bodies at lines 141-165 and 183-207.) -/
def fingerprintMatches (fp : String) (s : SubRow) : Bool :=
  match s.traceFields with
  | some tf => receiptFingerprint tf == fp
  | none => false

/-- The `previousSubmissions` query (`fraud-guard.ts` lines 129-138):
same wallet, different id, status APPROVED or PAID. -/
def sameWalletApprovedPaid (cur : SubRow) (db : List SubRow) : List SubRow :=
  db.filter fun s =>
    s.wallet == cur.wallet && s.id != cur.id &&
      (s.status == SubmissionStatus.APPROVED || s.status == SubmissionStatus.PAID)

/-- The `globalSubmissions` query (`fraud-guard.ts` lines 171-180):
different id, created in the last 7 days, status APPROVED or PAID —
any wallet. -/
def recentGlobalApprovedPaid (cur : SubRow) (db : List SubRow) (sevenDaysAgo : Int) :
    List SubRow :=
  db.filter fun s =>
    s.id != cur.id && decide (sevenDaysAgo ≤ s.created_at) &&
      (s.status == SubmissionStatus.APPROVED || s.status == SubmissionStatus.PAID)

/-- The `fuzzyDuplicates` query (`fraud-guard.ts` lines 215-222):
same wallet, different id, created in the last 7 days, APPROVED or PAID. -/
def recentSameWalletApprovedPaid (cur : SubRow) (db : List SubRow) (sevenDaysAgo : Int) :
    List SubRow :=
  db.filter fun s =>
    s.wallet == cur.wallet && s.id != cur.id && decide (sevenDaysAgo ≤ s.created_at) &&
      (s.status == SubmissionStatus.APPROVED || s.status == SubmissionStatus.PAID)

/-- The `similarCount` computation (`fraud-guard.ts` lines 225-228): the
fuzzy-duplicate candidates are filtered by a callback that returns
`true` for every row (`return true; // For demo, flag if any recent
submission exists`) — the fuzzy fingerprint computed just above in the
source is never compared. -/
def similarCount (cur : SubRow) (db : List SubRow) (sevenDaysAgo : Int) : Nat :=
  ((recentSameWalletApprovedPaid cur db sevenDaysAgo).filter fun _ => true).length

/-- The device-velocity count (`fraud-guard.ts` lines 239-246): APPROVED
rows with the same device fingerprint and quest since local midnight. -/
def deviceApprovalsToday (cur : SubRow) (db : List SubRow) (todayStartMs : Int) : Nat :=
  (db.filter fun s =>
    s.device_fingerprint == cur.device_fingerprint && s.quest_id == cur.quest_id &&
      s.status == SubmissionStatus.APPROVED && decide (todayStartMs ≤ s.created_at)).length

/-- `fraudGuardAgent` (`fraud-guard.ts` lines 113-274).  `cur` is the
submission under review, `fields` the verifier's OCR fields, `db` every
other submission row the queries can see, `nowMs` the current time and
`todayStartMs` local midnight.  Stages, in source order:
1. exact duplicate against same-wallet APPROVED/PAID rows — forces risk
   1.0 and returns at once;
2. global duplicate against any APPROVED/PAID row of the last 7 days —
   same forced return;
3. fuzzy similarity: any surviving `similarCount` row raises risk to at
   least 0.5;
4. device velocity: at or above 3 same-device same-quest APPROVED rows
   since midnight raises risk to at least 0.5;
5. optional quality scoring, which can raise risk to at least 0.3. -/
def fraudGuardAgent (cur : SubRow) (fields : OcrFields) (db : List SubRow)
    (nowMs todayStartMs : Int) (enableQualityScoring : Bool) : FraudResult :=
  let fp := receiptFingerprint fields
  if (sameWalletApprovedPaid cur db).any (fingerprintMatches fp) then
    { duplicate := true, device_velocity := 0, risk_score := 1,
      reasons := ["Exact duplicate receipt found"],
      quality_score := none, quality_flags := none }
  else
    let sevenDaysAgo := nowMs - sevenDaysMs
    if (recentGlobalApprovedPaid cur db sevenDaysAgo).any (fingerprintMatches fp) then
      { duplicate := true, device_velocity := 0, risk_score := 1,
        reasons := ["Duplicate receipt found (within 7 days)"],
        quality_score := none, quality_flags := none }
    else
      let risk1 : ℚ := 1 / 10
      let riskAndReasons2 : ℚ × List String :=
        if 0 < similarCount cur db sevenDaysAgo then
          (jsMax risk1 (1 / 2), ["Similar receipt pattern detected"])
        else (risk1, [])
      let deviceApprovals := deviceApprovalsToday cur db todayStartMs
      let riskAndReasons3 : ℚ × List String :=
        if 3 ≤ deviceApprovals then
          (jsMax riskAndReasons2.1 (1 / 2),
            riskAndReasons2.2 ++
              [s!"Device velocity limit exceeded: {deviceApprovals} approvals today"])
        else riskAndReasons2
      let quality := checkJustificationQuality cur.justification_text enableQualityScoring
      let joinedFlags := String.intercalate ", " quality.2
      let riskAndReasons4 : ℚ × List String :=
        if quality.2 ≠ [] && enableQualityScoring then
          (jsMax riskAndReasons3.1 (3 / 10),
            riskAndReasons3.2 ++ [s!"Quality flags: {joinedFlags}"])
        else riskAndReasons3
      { duplicate := false, device_velocity := deviceApprovals,
        risk_score := riskAndReasons4.1, reasons := riskAndReasons4.2,
        quality_score := some quality.1, quality_flags := some quality.2 }

/-! ## Rule verifier: amount predicate (`verifier.ts` lines 113-120) -/

/-- The failure reason string of the amount predicate
(`verifier.ts` line 117): the raw observed amount and threshold, each
prefixed with a dollar sign, with no unit conversion. -/
def amountFailReason (amount : Int) (op : String) (value : Int) : String :=
  "Amount $" ++ toString amount ++ " does not satisfy " ++ op ++ " $" ++ toString value

/-- One entry of `rules_fired` as produced by the amount branch. -/
structure AmountTrace where
  field : String
  ok : Bool
  observed : Int
  expected : Int
  reason : Option String
deriving DecidableEq, Repr

/-- The `case 'amount'` branch of `verifierAgent` (`verifier.ts` lines
113-120): `ok = op === '<=' ? amount <= value : amount >= value`, and on
failure the reason string above. -/
def evalAmountPredicate (amount : Int) (op : String) (value : Int) : AmountTrace :=
  let ok := if op == "<=" then decide (amount ≤ value) else decide (value ≤ amount)
  { field := "amount", ok := ok, observed := amount, expected := value,
    reason := if ok then none else some (amountFailReason amount op value) }

/-! ## Job store claim (`worker.ts` lines 141-168) -/

/-- A `Job` row. -/
structure Job where
  id : String
  status : JobStatus
  attempts : Nat
  created_at : Int
deriving DecidableEq, Repr

/-- The older of two jobs by `created_at` (ties keep the left one, as a
database would return some fixed order). -/
def olderJob (a b : Job) : Job := if b.created_at < a.created_at then b else a

/-- The raw `SELECT id FROM "Job" WHERE status = 'QUEUED' ORDER BY
created_at ASC LIMIT 1 FOR UPDATE SKIP LOCKED` of `claimNextJob`.  It is
issued through `$queryRawUnsafe` outside any enclosing transaction, so it
reads but does not change the store, and its row lock is released when
its own implicit transaction commits — before the separate update below. -/
def selectOldestQueued (store : List Job) : Option String :=
  match store.filter (fun j => j.status == JobStatus.QUEUED) with
  | [] => none
  | j :: rest => some ((rest.foldl olderJob j).id)

/-- The separate `prisma.job.update` of `claimNextJob`: set the selected
job to `PROCESSING` and increment its attempt counter. -/
def markClaimed (store : List Job) (jobId : String) : List Job :=
  store.map fun j =>
    if j.id == jobId then { j with status := JobStatus.PROCESSING, attempts := j.attempts + 1 }
    else j

/-- `claimNextJob`'s second half applied to whatever the select returned. -/
def claimUpdate (store : List Job) (selected : Option String) : List Job :=
  match selected with
  | some j => markClaimed store j
  | none => store

/-- Two worker processes interleaving `claimNextJob`: both run the raw
select against the same store state (the first worker's select has
committed, releasing its lock, and its update has not yet run), then both
run their updates.  Returns what each worker claimed and the final store. -/
def interleavedClaim (s0 : List Job) : Option String × Option String × List Job :=
  let a := selectOldestQueued s0
  let b := selectOldestQueued s0
  let s1 := claimUpdate s0 a
  let s2 := claimUpdate s1 b
  (a, b, s2)

/-! ## Worker-to-executor handoff (`worker.ts` line 138, `payout.ts` line 105) -/

/-- The own enumerable string fields of the Prisma submission object that
`processPayoutJob` passes to `payoutAgent`.  Its key is `id`; it has no
`submissionId` key. -/
def submissionObjectFields (s : SubRow) : List (String × String) :=
  [("id", s.id), ("quest_id", s.quest_id), ("wallet", s.wallet),
   ("device_fingerprint", s.device_fingerprint),
   ("justification_text", s.justification_text)]

/-- JavaScript property read on such an object: `undefined` is `none`. -/
def jsGetString (obj : List (String × String)) (key : String) : Option String :=
  (obj.find? fun p => p.1 == key).map fun p => p.2

/-- `const { submissionId } = input` (`payout.ts` line 105) applied to the
argument `processPayoutJob` actually passes — the whole submission
object (`worker.ts` line 138: `payoutAgent(submission)`). -/
def workerHandoffSubmissionId (s : SubRow) : Option String :=
  jsGetString (submissionObjectFields s) "submissionId"

/-- The executor's initial lookup,
`prisma.submission.findUnique({ where: { id: submissionId } })`: with an
`undefined` id it cannot return the submission. -/
def lookupSubmissionById (db : List SubRow) (sid : Option String) : Option SubRow :=
  match sid with
  | none => none
  | some i => db.find? fun s => s.id == i

/-! ## Concrete instances used by witnesses and counterexamples -/

/-- A quest with budget 100 and unit amount 10. -/
def questW : Quest :=
  { id := "q1", unit_amount := 10, budget_total := 100, budget_remaining := 100 }

/-- An approved submission of that quest. -/
def subW : SubRecord :=
  { id := "s1", wallet := "0xw1", device_fingerprint := "dev1",
    justification_text := "food for my dog", status := SubmissionStatus.APPROVED }

/-- Database slice: approved submission, verification present, no payout yet. -/
def dbW : PayoutDB :=
  { quest := questW, submission := subW, hasVerification := true, payout := none }

/-- An already-COMPLETED payout row for `subW`. -/
def payoutRowW : PayoutRow :=
  { id := "p0", submission_id := "s1", amount := 10, tx_hash := some "0xhash0",
    status := PayoutStatus.COMPLETED, mocked := true }

/-- Database slice with the completed payout already recorded. -/
def dbCompletedW : PayoutDB := { dbW with payout := some payoutRowW }

/-- A quest whose remaining budget (5) is below its unit amount (10). -/
def questLowW : Quest :=
  { id := "q1", unit_amount := 10, budget_total := 100, budget_remaining := 5 }

/-- Database slice with the exhausted-budget quest. -/
def dbLowW : PayoutDB :=
  { quest := questLowW, submission := subW, hasVerification := true, payout := none }

/-- The transfer-rail error used in the rollback scenario. -/
def transferFailMsg : String := "transfer rail rejected the transaction"

/-- A single queued job, the oldest (and only) claimable one. -/
def jobQueuedW : Job :=
  { id := "j1", status := JobStatus.QUEUED, attempts := 0, created_at := 0 }

/-- OCR fields of the duplicate-receipt scenario. -/
def fieldsDupW : OcrFields := { merchant := "Chewy", date := "2025-01-15", amount := 28 }

/-- A prior PAID submission of the same wallet carrying those very fields
in its stored trace. -/
def prevDupW : SubRow :=
  { id := "s0", wallet := "0xw1", device_fingerprint := "devX", quest_id := "q1",
    status := SubmissionStatus.PAID, created_at := 0,
    justification_text := "earlier receipt", traceFields := some fieldsDupW }

/-- The submission under review in the duplicate scenario. -/
def curDupW : SubRow :=
  { id := "s1", wallet := "0xw1", device_fingerprint := "dev1", quest_id := "q1",
    status := SubmissionStatus.PROCESSING, created_at := 1000,
    justification_text := "my dog food haul", traceFields := none }

/-- Reference time for the similarity scenario (milliseconds). -/
def nowSimW : Int := 1736899200000

/-- Local midnight for the similarity scenario. -/
def todaySimW : Int := nowSimW - 3600000

/-- OCR fields of the submission under review in the similarity
scenario: merchant `chewy`, date `2025-01-15`. -/
def fieldsSimW : OcrFields := { merchant := "chewy", date := "2025-01-15", amount := 10 }

/-- A prior APPROVED same-wallet submission from the day before with a
different merchant and a different date (`petco`, `2025-01-10`). -/
def prevSimW : SubRow :=
  { id := "s1", wallet := "0xw9", device_fingerprint := "devA", quest_id := "q1",
    status := SubmissionStatus.APPROVED, created_at := nowSimW - 86400000,
    justification_text := "petco run", traceFields :=
      some { merchant := "petco", date := "2025-01-10", amount := 7 } }

/-- The submission under review in the similarity scenario. -/
def curSimW : SubRow :=
  { id := "s2", wallet := "0xw9", device_fingerprint := "devB", quest_id := "q1",
    status := SubmissionStatus.PROCESSING, created_at := nowSimW,
    justification_text := "chewy order", traceFields := none }

/-- A wrapped call that fails with a non-transient, non-policy error on
attempt 0 and succeeds on attempt 1. -/
def boomThenOk : Nat → Except PayoutError Nat := fun n =>
  if n = 0 then Except.error (PayoutError.generic "boom") else Except.ok 42

/-! ## Theorems -/

/-- Inversion for a successful payout transaction: the committed state
has the budget decremented by exactly `unit_amount`, the total untouched,
and success implies the budget re-check passed. -/
lemma payoutTransaction_ok_budget
    (db : PayoutDB) (authorized : Bool) (authReason : Option String)
    (demoMode : Bool) (demoHash : String) (realTransfer : Except String String)
    (newPayoutId : String) (res : PayoutResult) (db2 : PayoutDB)
    (h : payoutTransaction db authorized authReason demoMode demoHash realTransfer
      newPayoutId = Except.ok (res, db2)) :
    db2.quest.budget_remaining = db.quest.budget_remaining - db.quest.unit_amount ∧
      db2.quest.budget_total = db.quest.budget_total ∧
      db.quest.unit_amount ≤ db.quest.budget_remaining := by
  rw [payoutTransaction] at h
  by_cases hb : db.quest.budget_remaining < db.quest.unit_amount
  · rw [if_pos hb] at h
    simp at h
  · rw [if_neg hb] at h
    by_cases ha : authorized = false
    · rw [if_pos ha] at h
      simp at h
    · rw [if_neg ha] at h
      cases ht : transferOutcome demoMode demoHash realTransfer with
      | error e =>
        rw [ht] at h
        simp at h
      | ok pr =>
        obtain ⟨txHash, mocked⟩ := pr
        rw [ht] at h
        simp only [Except.ok.injEq, Prod.mk.injEq] at h
        obtain ⟨-, hdb⟩ := h
        subst hdb
        exact ⟨by simp [successDB], by simp [successDB], not_lt.mp hb⟩

/-- C2: for every submission whose `Payout` record already exists with
status `COMPLETED`, calling the payout executor again returns the
existing transfer reference (`tx_hash`, defaulted to the empty string
when null) and leaves the whole database slice — in particular the
quest's `budget_remaining` — unchanged: no second decrement and no new
transfer happen. -/
theorem payout_idempotent_on_completed
    (db : PayoutDB) (authorized : Bool) (authReason : Option String)
    (demoMode : Bool) (demoHash : String) (realTransfer : Except String String)
    (newPayoutId : String) (p : PayoutRow)
    (hs : db.submission.status = SubmissionStatus.APPROVED)
    (hv : db.hasVerification = true)
    (hp : db.payout = some p)
    (hc : p.status = PayoutStatus.COMPLETED) :
    payoutAttempt db authorized authReason demoMode demoHash realTransfer newPayoutId
        = Except.ok
          ({ payoutId := p.id, txHash := p.tx_hash.getD "", amount := p.amount,
             mocked := p.mocked }, db) ∧
      (postDB db (payoutAttempt db authorized authReason demoMode demoHash realTransfer
        newPayoutId)).quest.budget_remaining = db.quest.budget_remaining := by
  have h : payoutAttempt db authorized authReason demoMode demoHash realTransfer newPayoutId
      = Except.ok
        ({ payoutId := p.id, txHash := p.tx_hash.getD "", amount := p.amount,
           mocked := p.mocked }, db) := by
    simp [payoutAttempt, hv, hs, hp, hc]
  exact ⟨h, by rw [h]; rfl⟩

/-- C2 witness: the completed payout row `payoutRowW` is returned as-is
and the budget stays at 100. -/
theorem payout_idempotent_on_completed_witness :
    payoutAttempt dbCompletedW true none true "0xdemo" (Except.ok "0xreal") "p1"
        = Except.ok
          ({ payoutId := "p0", txHash := "0xhash0", amount := 10,
             mocked := true }, dbCompletedW) ∧
      (postDB dbCompletedW (payoutAttempt dbCompletedW true none true "0xdemo"
        (Except.ok "0xreal") "p1")).quest.budget_remaining
        = dbCompletedW.quest.budget_remaining :=
  payout_idempotent_on_completed dbCompletedW true none true "0xdemo" (Except.ok "0xreal")
    "p1" payoutRowW rfl rfl rfl rfl

/-- C4 (code bug): the job claim is not one atomic operation.  The raw
`SELECT ... FOR UPDATE SKIP LOCKED` runs in its own implicit transaction
(its lock is released on return) and the `PROCESSING` update is a second,
separate statement; two workers that both run the select before either
update both receive the same queued job `j1` and both proceed to process
it (its attempt counter even reaches 2), violating claim exclusivity. -/
theorem claim_next_job_not_exclusive :
    interleavedClaim [jobQueuedW] =
      (some "j1", some "j1",
        [{ id := "j1", status := JobStatus.PROCESSING, attempts := 2, created_at := 0 }]) := by
  decide

/-- C9 counterexample: the failing amount predicate `amount <= 5000`
against observed 5001 produces a reason that renders both numbers as raw
minor-unit integers prefixed with a dollar sign — the major-currency-unit
renderings `50.01`/`50.00` appear nowhere in the string. -/
theorem amount_reason_not_major_units :
    evalAmountPredicate 5001 "<=" 5000 =
      { field := "amount", ok := false, observed := 5001, expected := 5000,
        reason := some "Amount $5001 does not satisfy <= $5000" } ∧
    strContains "Amount $5001 does not satisfy <= $5000" "does not satisfy" = true ∧
    strContains "Amount $5001 does not satisfy <= $5000" "5001" = true ∧
    strContains "Amount $5001 does not satisfy <= $5000" "5000" = true ∧
    strContains "Amount $5001 does not satisfy <= $5000" "50.01" = false ∧
    strContains "Amount $5001 does not satisfy <= $5000" "50.00" = false := by
  decide

/-- C9 (amended): the amount predicate compares observed amount and
threshold as integers, and on failure its reason is the
"does not satisfy" string referencing both numbers in raw minor-unit
form (a dollar sign prefixed to each unconverted integer), not converted
to major currency units. -/
theorem amount_predicate_integer_compare_and_reason (amount value : Int) :
    ((evalAmountPredicate amount "<=" value).ok = decide (amount ≤ value)) ∧
    (¬ amount ≤ value →
      (evalAmountPredicate amount "<=" value).reason =
        some (amountFailReason amount "<=" value)) := by
  constructor
  · simp [evalAmountPredicate]
  · intro h
    simp [evalAmountPredicate, h]

/-- C9 witness: the amended statement evaluated at observed 5001 against
threshold 5000. -/
theorem amount_predicate_integer_compare_and_reason_witness :
    (evalAmountPredicate 5001 "<=" 5000).reason =
      some (amountFailReason 5001 "<=" 5000) :=
  (amount_predicate_integer_compare_and_reason 5001 5000).2 (by decide)

/-- C10 (code bug): `processPayoutJob` passes the whole submission object
to `payoutAgent`, whose destructuring reads the `submissionId` property —
a key the submission object does not have (its key is `id`).  The
extracted id is therefore `undefined` for every submission, and the
executor's initial `findUnique` lookup can never return the submission it
was meant to operate on. -/
theorem worker_handoff_drops_submission_id (s : SubRow) (db : List SubRow) :
    workerHandoffSubmissionId s = none ∧
    lookupSubmissionById db (workerHandoffSubmissionId s) = none := by
  exact ⟨rfl, rfl⟩

/-- C8 counterexample: a non-transient, non-policy error (`boom`) thrown
on the first attempt is retried anyway — the wrapper returns the second
attempt's success instead of surfacing the error, contradicting
"retries on transient/network-class errors only". -/
theorem retry_retries_nontransient_errors :
    retryModel boomThenOk 3 = Except.ok 42 ∧
    isTransientMessage "boom" = false ∧
    (PayoutError.generic "boom").isPolicyViolation = false :=
  ⟨rfl, rfl, rfl⟩

/-- C8 (amended): the retry wrapper makes up to 3 attempts with an
exponential (doubling) backoff; a `PolicyViolation` — which is how the
insufficient-budget failure is thrown — is re-thrown at once and never
retried; every other error, transient or not, is retried until the
attempt bound is reached (the transient-message check is computed but its
result never stops a retry). -/
theorem retry_policy_never_retried_others_always (α : Type) :
    (∀ (fn : Nat → Except PayoutError α) (m : String) (r : Option String) (n : Nat),
      fn 0 = Except.error (PayoutError.policyViolation m r) →
        retryModel fn (n + 1) = Except.error (PayoutError.policyViolation m r)) ∧
    (∀ (fn : Nat → Except PayoutError α) (e : PayoutError) (v : α),
      e.isPolicyViolation = false → fn 0 = Except.error e → fn 1 = Except.ok v →
        retryModel fn 3 = Except.ok v) ∧
    (∀ (fn : Nat → Except PayoutError α) (e : Nat → PayoutError),
      (∀ k, (e k).isPolicyViolation = false) → (∀ k, fn k = Except.error (e k)) →
        retryModel fn 3 = Except.error (e 2)) ∧
    (∀ delayMs attempt : Nat,
      backoffDelay delayMs (attempt + 1) = 2 * backoffDelay delayMs attempt) := by
  refine ⟨?_, ?_, ?_, ?_⟩
  · intro fn m r n h
    simp [retryModel, retryAux, h, PayoutError.isPolicyViolation]
  · intro fn e v he h0 h1
    simp [retryModel, retryAux, h0, h1, he]
  · intro fn e he hf
    simp [retryModel, retryAux, hf 0, hf 1, hf 2, he 0, he 1, he 2]
  · intro delayMs attempt
    rw [backoffDelay, backoffDelay, pow_succ]
    ring

/-- C8 witness: a policy violation carrying the insufficient-budget
message is surfaced unchanged by a 3-attempt retry — it is not retried. -/
theorem retry_policy_never_retried_others_always_witness :
    retryModel (fun _ => (Except.error (PayoutError.policyViolation
        "Insufficient budget: 5 < 10" (some "Quest budget exhausted")) :
          Except PayoutError Nat)) 3
      = Except.error (PayoutError.policyViolation "Insufficient budget: 5 < 10"
          (some "Quest budget exhausted")) :=
  (retry_policy_never_retried_others_always Nat).1
    (fun _ => Except.error (PayoutError.policyViolation "Insufficient budget: 5 < 10"
      (some "Quest budget exhausted")))
    "Insufficient budget: 5 < 10" (some "Quest budget exhausted") 2 rfl

/-- C5: the pipeline decision is `APPROVE` exactly when every rule trace
entry passed and the risk score is strictly below 0.5; whenever some
predicate failed the decision is `REJECT` — whatever the risk score, 0
included — and the submission status then written is `REJECTED`. -/
theorem pipeline_decision_approve_iff (rulesFired : List FiredRule) (riskScore : ℚ) :
    (pipelineDecision rulesFired riskScore = Decision.APPROVE ↔
      ((∀ r ∈ rulesFired, r.ok = true) ∧ riskScore < 1 / 2)) ∧
    ((∃ r ∈ rulesFired, r.ok = false) →
      pipelineDecision rulesFired riskScore = Decision.REJECT ∧
        statusAfterDecision (pipelineDecision rulesFired riskScore) =
          SubmissionStatus.REJECTED) := by
  have hiff : pipelineDecision rulesFired riskScore = Decision.APPROVE ↔
      ((∀ r ∈ rulesFired, r.ok = true) ∧ riskScore < 1 / 2) := by
    rw [pipelineDecision]
    by_cases h : ((rulesFired.all fun r => r.ok) && decide (riskScore < 1 / 2)) = true
    · rw [if_pos h]
      simp only [Bool.and_eq_true, List.all_eq_true, decide_eq_true_eq] at h
      simpa using h
    · rw [if_neg h]
      simp only [Bool.and_eq_true, List.all_eq_true, decide_eq_true_eq] at h
      constructor
      · intro hra
        exact absurd hra (by simp)
      · intro hc
        exact absurd hc h
  refine ⟨hiff, ?_⟩
  rintro ⟨r, hr, hok⟩
  have hrej : pipelineDecision rulesFired riskScore = Decision.REJECT := by
    rw [pipelineDecision, if_neg]
    simp only [Bool.and_eq_true, List.all_eq_true, not_and]
    intro hall
    have := hall r hr
    rw [hok] at this
    cases this
  refine ⟨hrej, ?_⟩
  rw [hrej]
  rfl

/-- C5 witness: one failing amount predicate with risk score 0 yields
`REJECT` and status `REJECTED`. -/
theorem pipeline_decision_approve_iff_witness :
    pipelineDecision [{ field := "amount", ok := false }] 0 = Decision.REJECT ∧
      statusAfterDecision (pipelineDecision [{ field := "amount", ok := false }] 0) =
        SubmissionStatus.REJECTED :=
  (pipeline_decision_approve_iff [{ field := "amount", ok := false }] 0).2
    ⟨{ field := "amount", ok := false }, by simp, rfl⟩

/-- C1: for every payout execution on an approved, verified submission
with no completed payout yet (and a well-formed quest,
`0 ≤ budget_remaining ≤ budget_total`, `0 ≤ unit_amount`): when the
locked budget is below the unit amount the call fails with the
insufficient-budget policy violation and the budget is unchanged by the
rollback; when the call returns successfully the budget was decremented
by exactly `unit_amount`; and in every case the invariant
`0 ≤ budget_remaining ≤ budget_total` is preserved — the budget never
goes negative and the total is never touched. -/
theorem payout_budget_check_and_invariant
    (db : PayoutDB) (authorized : Bool) (authReason : Option String)
    (demoMode : Bool) (demoHash : String) (realTransfer : Except String String)
    (newPayoutId : String)
    (hs : db.submission.status = SubmissionStatus.APPROVED)
    (hv : db.hasVerification = true)
    (hnc : ∀ p, db.payout = some p → p.status ≠ PayoutStatus.COMPLETED)
    (h0 : 0 ≤ db.quest.budget_remaining)
    (h1 : db.quest.budget_remaining ≤ db.quest.budget_total)
    (h2 : 0 ≤ db.quest.unit_amount) :
    (db.quest.budget_remaining < db.quest.unit_amount →
      payoutAttempt db authorized authReason demoMode demoHash realTransfer newPayoutId
          = Except.error (PayoutError.policyViolation
              (insufficientBudgetMsg db.quest.budget_remaining db.quest.unit_amount)
              (some "Quest budget exhausted")) ∧
        (postDB db (payoutAttempt db authorized authReason demoMode demoHash realTransfer
          newPayoutId)).quest.budget_remaining = db.quest.budget_remaining) ∧
    (∀ res db2,
      payoutAttempt db authorized authReason demoMode demoHash realTransfer newPayoutId
          = Except.ok (res, db2) →
        db2.quest.budget_remaining = db.quest.budget_remaining - db.quest.unit_amount) ∧
    (0 ≤ (postDB db (payoutAttempt db authorized authReason demoMode demoHash realTransfer
        newPayoutId)).quest.budget_remaining ∧
      (postDB db (payoutAttempt db authorized authReason demoMode demoHash realTransfer
        newPayoutId)).quest.budget_remaining
        ≤ (postDB db (payoutAttempt db authorized authReason demoMode demoHash realTransfer
            newPayoutId)).quest.budget_total ∧
      (postDB db (payoutAttempt db authorized authReason demoMode demoHash realTransfer
        newPayoutId)).quest.budget_total = db.quest.budget_total) := by
  have hred : payoutAttempt db authorized authReason demoMode demoHash realTransfer
      newPayoutId
      = payoutTransaction db authorized authReason demoMode demoHash realTransfer
        newPayoutId := by
    rw [payoutAttempt, if_neg (by simp [hv]), if_neg (by simp [hs])]
    cases hp : db.payout with
    | none => rfl
    | some p => exact if_neg (hnc p hp)
  rw [hred]
  refine ⟨?_, ?_, ?_⟩
  · intro hb
    have herr : payoutTransaction db authorized authReason demoMode demoHash realTransfer
        newPayoutId
        = Except.error (PayoutError.policyViolation
            (insufficientBudgetMsg db.quest.budget_remaining db.quest.unit_amount)
            (some "Quest budget exhausted")) := by
      rw [payoutTransaction, if_pos hb]
    exact ⟨herr, by rw [herr]; rfl⟩
  · intro res db2 hok
    exact (payoutTransaction_ok_budget db authorized authReason demoMode demoHash
      realTransfer newPayoutId res db2 hok).1
  · cases hr : payoutTransaction db authorized authReason demoMode demoHash realTransfer
        newPayoutId with
    | error e =>
      exact ⟨h0, h1, rfl⟩
    | ok v =>
      obtain ⟨res, db2⟩ := v
      obtain ⟨hrem, htot, hle⟩ := payoutTransaction_ok_budget db authorized authReason
        demoMode demoHash realTransfer newPayoutId res db2 hr
      simp only [postDB]
      refine ⟨?_, ?_, htot⟩
      · rw [hrem]
        linarith
      · rw [hrem, htot]
        linarith

/-- C1 witness: a quest with `budget_remaining = 5 < unit_amount = 10`
fails with the insufficient-budget policy violation and keeps its budget,
and the invariant holds after the call. -/
theorem payout_budget_check_and_invariant_witness :
    (dbLowW.quest.budget_remaining < dbLowW.quest.unit_amount →
      payoutAttempt dbLowW true none true "0xdemo" (Except.ok "0xreal") "p1"
          = Except.error (PayoutError.policyViolation
              (insufficientBudgetMsg dbLowW.quest.budget_remaining dbLowW.quest.unit_amount)
              (some "Quest budget exhausted")) ∧
        (postDB dbLowW (payoutAttempt dbLowW true none true "0xdemo" (Except.ok "0xreal")
          "p1")).quest.budget_remaining = dbLowW.quest.budget_remaining) ∧
    (∀ res db2,
      payoutAttempt dbLowW true none true "0xdemo" (Except.ok "0xreal") "p1"
          = Except.ok (res, db2) →
        db2.quest.budget_remaining
          = dbLowW.quest.budget_remaining - dbLowW.quest.unit_amount) ∧
    (0 ≤ (postDB dbLowW (payoutAttempt dbLowW true none true "0xdemo" (Except.ok "0xreal")
        "p1")).quest.budget_remaining ∧
      (postDB dbLowW (payoutAttempt dbLowW true none true "0xdemo" (Except.ok "0xreal")
        "p1")).quest.budget_remaining
        ≤ (postDB dbLowW (payoutAttempt dbLowW true none true "0xdemo" (Except.ok "0xreal")
            "p1")).quest.budget_total ∧
      (postDB dbLowW (payoutAttempt dbLowW true none true "0xdemo" (Except.ok "0xreal")
        "p1")).quest.budget_total = dbLowW.quest.budget_total) :=
  payout_budget_check_and_invariant dbLowW true none true "0xdemo" (Except.ok "0xreal") "p1"
    rfl rfl (fun p h => Option.noConfusion h) (by decide) (by decide) (by decide)

/-- C3 (code bug): a real-mode payout whose transfer rail fails after the
budget decrement.  The transaction rollback does undo the decrement (the
budget is recredited, no silent debit), but the same rollback also
discards the `status: FAILED` write the source performed inside the
transaction just before re-throwing — the post-state has no payout row at
all, so the payout does not end `FAILED` as the specification demands. -/
theorem payout_transfer_failure_rolls_back_failed_status :
    payoutAttempt dbW true none false "0xdemo" (Except.error transferFailMsg) "p1"
        = Except.error (PayoutError.generic transferFailMsg) ∧
    postDB dbW (payoutAttempt dbW true none false "0xdemo" (Except.error transferFailMsg)
        "p1") = dbW ∧
    (postDB dbW (payoutAttempt dbW true none false "0xdemo" (Except.error transferFailMsg)
        "p1")).quest.budget_remaining = 100 ∧
    (postDB dbW (payoutAttempt dbW true none false "0xdemo" (Except.error transferFailMsg)
        "p1")).payout = none := by
  have h : payoutAttempt dbW true none false "0xdemo" (Except.error transferFailMsg) "p1"
      = Except.error (PayoutError.generic transferFailMsg) := by
    rw [payoutAttempt, if_neg (by simp [dbW]), if_neg (by simp [dbW, subW])]
    show payoutTransaction dbW true none false "0xdemo" (Except.error transferFailMsg) "p1"
      = Except.error (PayoutError.generic transferFailMsg)
    rw [payoutTransaction,
      if_neg (show ¬ dbW.quest.budget_remaining < dbW.quest.unit_amount by
        show ¬ ((100 : ℚ) < 10)
        norm_num),
      if_neg (by simp)]
    rfl
  exact ⟨h, by rw [h]; rfl, by rw [h]; rfl, by rw [h]; rfl⟩

/-- C6: whenever any other submission of the same wallet that reached
APPROVED or PAID carries trace OCR fields with an identical canonical
fingerprint, the fraud guard returns risk score exactly 1.0 with the
duplicate reason and short-circuits — the result is the fixed
early-return record, independent of the velocity, similarity and quality
inputs — and the pipeline decision is REJECT for every rule-verifier
outcome. -/
theorem fraud_exact_duplicate_forces_reject
    (cur : SubRow) (fields : OcrFields) (db : List SubRow) (nowMs todayStartMs : Int)
    (enableQualityScoring : Bool) (prev : SubRow) (tf : OcrFields)
    (hmem : prev ∈ db) (hw : prev.wallet = cur.wallet) (hid : prev.id ≠ cur.id)
    (hst : prev.status = SubmissionStatus.APPROVED ∨ prev.status = SubmissionStatus.PAID)
    (htf : prev.traceFields = some tf)
    (hfp : receiptFingerprint tf = receiptFingerprint fields) :
    fraudGuardAgent cur fields db nowMs todayStartMs enableQualityScoring =
      { duplicate := true, device_velocity := 0, risk_score := 1,
        reasons := ["Exact duplicate receipt found"],
        quality_score := none, quality_flags := none } ∧
    (∀ rulesFired : List FiredRule,
      pipelineDecision rulesFired
        (fraudGuardAgent cur fields db nowMs todayStartMs enableQualityScoring).risk_score
          = Decision.REJECT) := by
  have hany : (sameWalletApprovedPaid cur db).any
      (fingerprintMatches (receiptFingerprint fields)) = true := by
    rw [List.any_eq_true]
    refine ⟨prev, ?_, ?_⟩
    · rw [sameWalletApprovedPaid, List.mem_filter]
      refine ⟨hmem, ?_⟩
      simp only [Bool.and_eq_true, beq_iff_eq, bne_iff_ne, Bool.or_eq_true]
      exact ⟨⟨hw, hid⟩, hst⟩
    · simp only [fingerprintMatches, htf, hfp, beq_self_eq_true]
  have hres : fraudGuardAgent cur fields db nowMs todayStartMs enableQualityScoring =
      { duplicate := true, device_velocity := 0, risk_score := 1,
        reasons := ["Exact duplicate receipt found"],
        quality_score := none, quality_flags := none } := by
    simp only [fraudGuardAgent, hany, if_true]
  have hd : decide ((1 : ℚ) < 1 / 2) = false := by norm_num
  refine ⟨hres, ?_⟩
  intro rulesFired
  rw [hres]
  simp [pipelineDecision, hd]
  intro _
  norm_num

/-- C6 witness: the `Chewy 2025-01-15` receipt repeated by the wallet
that already got it PAID is forced to risk 1.0 and REJECT. -/
theorem fraud_exact_duplicate_forces_reject_witness :
    fraudGuardAgent curDupW fieldsDupW [prevDupW] 1000 0 false =
      { duplicate := true, device_velocity := 0, risk_score := 1,
        reasons := ["Exact duplicate receipt found"],
        quality_score := none, quality_flags := none } ∧
    (∀ rulesFired : List FiredRule,
      pipelineDecision rulesFired
        (fraudGuardAgent curDupW fieldsDupW [prevDupW] 1000 0 false).risk_score
          = Decision.REJECT) :=
  fraud_exact_duplicate_forces_reject curDupW fieldsDupW [prevDupW] 1000 0 false
    prevDupW fieldsDupW (by simp) rfl (by decide) (Or.inr rfl) rfl rfl

/-- C7 (code bug): the fuzzy-similarity stage of the live fraud guard
flags any recent same-wallet APPROVED/PAID submission — its filter
callback returns `true` for every row and the computed fuzzy fingerprint
is never compared.  Evaluated on a prior approved submission with a
different merchant and date: the similarity flag is still raised and the
risk score becomes 0.5 although the two fuzzy fingerprints differ, which
contradicts "a similarity flag exactly when the fuzzy fingerprints
match". -/
theorem fraud_similarity_flag_without_fuzzy_match :
    fraudGuardAgent curSimW fieldsSimW [prevSimW] nowSimW todaySimW false =
      { duplicate := false, device_velocity := 0, risk_score := 1 / 2,
        reasons := ["Similar receipt pattern detected"],
        quality_score := some 1, quality_flags := some [] } ∧
    fuzzyFingerprint "petco" "2025-01-10" ≠
      fuzzyFingerprint fieldsSimW.merchant fieldsSimW.date := by
  have h1 : (sameWalletApprovedPaid curSimW [prevSimW]).any
      (fingerprintMatches (receiptFingerprint fieldsSimW)) = false := by decide
  have h2 : (recentGlobalApprovedPaid curSimW [prevSimW] (nowSimW - sevenDaysMs)).any
      (fingerprintMatches (receiptFingerprint fieldsSimW)) = false := by decide
  have h3 : similarCount curSimW [prevSimW] (nowSimW - sevenDaysMs) = 1 := by decide
  have h4 : deviceApprovalsToday curSimW [prevSimW] todaySimW = 0 := by decide
  have h5 : checkJustificationQuality curSimW.justification_text false = (1, []) := rfl
  have hmax : jsMax (1 / 10 : ℚ) (1 / 2) = 1 / 2 := by
    rw [jsMax, if_pos (show (1 : ℚ) / 10 < 1 / 2 by norm_num)]
  constructor
  · simp only [fraudGuardAgent, h1, h2, h3, h4, h5, hmax]
    norm_num
  · decide

end QuestPipeline
